import Mathlib

/-!
Verification of `staging/src/k8s.io/cri-client/pkg/logs/dedup.go`, a
debouncing/coalescing layer over an fsnotify event stream.  The file holds
two variants of the same component: `dedupWriteEventsWatcher` (external-close
variant, lines 32-92) and `dedupWriteEvents` (self-closing variant, lines
124-194).  Both run the same per-event policy (lines 67-91 and 168-191);
the shallow embedding below shares that policy in `dedupDecide` and models
the loop, the channel traces, the bounded output channel and the shutdown
drains separately.

Times are natural numbers, measured in milliseconds since the zero value of
Go's `time.Time` (the zero-initialized `lastAdd`).  Go compares
`time.Since(lastAdd) < waitDuration`; with a monotone clock this is
`now - lastAdd < waitDuration`, and Nat truncated subtraction agrees with
the Go comparison also when `now < lastAdd` (both sides then say "within
the window").  fsnotify operations are the bitmask values of the Go
package; Go's `switch e.Op` compares with `==`, so the embedding tests
equality against the `Write` and `Create` constants and treats every other
value as the `default` case.
-/

namespace DedupLogs

/-- fsnotify.Create = 1 << 0. -/
def opCreate : Nat := 1

/-- fsnotify.Write = 1 << 1. -/
def opWrite : Nat := 2

/-- fsnotify.Remove = 1 << 2. -/
def opRemove : Nat := 4

/-- fsnotify.Rename = 1 << 3. -/
def opRename : Nat := 8

/-- fsnotify.Chmod (attribute change) = 1 << 4. -/
def opChmod : Nat := 16

/-- `const waitDuration = 150 * time.Millisecond` (dedup.go line 26/118), in ms. -/
def waitDuration : Nat := 150

/-- An fsnotify.Event: `{Name string; Op Op}`. -/
structure Event where
  name : String
  op : Nat
deriving DecidableEq, Repr

/-- Go `path/filepath.Base` on a slash-separated path: empty path gives ".",
trailing slashes are stripped, the component after the last slash is
returned, and an all-slash path gives "/". -/
def goFilepathBase (path : String) : String :=
  if path = "" then "."
  else
    let comp :=
      ((path.toList.reverse.dropWhile (fun c => c = '/')).takeWhile
        (fun c => ¬ (c = '/'))).reverse
    if comp = [] then "/" else String.mk comp

/-- One dispatch of the dedup policy on a raw event `e` arriving at wall-clock
time `now`, given the current `lastAdd` timestamp and the current number of
unread items in the output Events channel (dedup.go lines 67-90 and
168-191).  Returns the list of events the loop sends to the output channel
for this raw event, in order, together with the new `lastAdd`:

* base name mismatch: `continue` - nothing sent, no state change;
* `Write`: if the channel is non-empty or less than `waitDuration` elapsed
  since `lastAdd`, `continue`; otherwise `lastAdd = time.Now()` and the
  event is sent;
* `Create`: a synthesized `{Name: e.Name, Op: Write}` is sent, `lastAdd =
  time.Now()`, then the original event is sent;
* any other operation (`default`): the event is sent, no state change. -/
def dedupDecide (logFileName : String) (lastAdd : Nat) (queueLen : Nat)
    (e : Event) (now : Nat) : List Event × Nat :=
  if ¬ (goFilepathBase e.name = logFileName) then ([], lastAdd)
  else if e.op = opWrite then
    if 0 < queueLen ∨ now - lastAdd < waitDuration then ([], lastAdd)
    else ([e], now)
  else if e.op = opCreate then
    ([{ name := e.name, op := opWrite }, e], now)
  else ([e], lastAdd)

/-- The state visible around one iteration of `dedupWriteEvents.dedupLoop`:
the loop-local `lastAdd` timestamp, the buffer of the output Events channel,
and the list of errors relayed so far to the output Errors channel. -/
structure DState where
  lastAdd : Nat
  events : List Event
  errors : List String
deriving DecidableEq, Repr

/-- Inputs to the running loop: a raw fsnotify event arriving at a given
time, a raw error value (opaque, modelled as a string), or the consumer
reading one item off the output Events channel. -/
inductive LoopIn where
  | ev : Event → Nat → LoopIn
  | err : String → LoopIn
  | consume : LoopIn
deriving DecidableEq, Repr

/-- State right after construction: `lastAdd` is the zero `time.Time`,
both output channels are empty (dedup.go lines 41-48 and 124-131). -/
def initState : DState := { lastAdd := 0, events := [], errors := [] }

/-- One iteration of `dedupWriteEvents.dedupLoop` (dedup.go lines 158-192):
a raw error is relayed unmodified to the output Errors channel; a raw event
is run through the dedup policy and its sends are appended to the output
Events channel; a consumer read removes the oldest buffered event. -/
def dedupStep (logFileName : String) (s : DState) (i : LoopIn) : DState :=
  match i with
  | .err m => { s with errors := s.errors ++ [m] }
  | .consume => { s with events := s.events.tail }
  | .ev e now =>
      let d := dedupDecide logFileName s.lastAdd s.events.length e now
      { s with events := s.events ++ d.1, lastAdd := d.2 }

/-- Run the dedup loop from the freshly-constructed state over a finite
input sequence (the sequence ends when the upstream watcher is closed). -/
def dedupRun (logFileName : String) (inputs : List LoopIn) : DState :=
  inputs.foldl (dedupStep logFileName) initState

/-- Operations the loop performs on its output channels, in program order. -/
inductive TraceOp where
  | sendEvent : Event → TraceOp
  | sendError : String → TraceOp
  | closeEvents : TraceOp
  | closeErrors : TraceOp
deriving DecidableEq, Repr

/-- The sequence of output-channel operations produced by
`dedupWriteEvents.dedupLoop` on an input sequence, threading `lastAdd` and
the Events-channel buffer.  The Go loop returns only when the upstream
events channel is closed (end of the input list), and its deferred
`de.close()` then closes the Events channel and the Errors channel
(dedup.go lines 154-194 with lines 133-141). -/
def runTrace (logFileName : String) (lastAdd : Nat) (queue : List Event) :
    List LoopIn → List TraceOp
  | [] => [TraceOp.closeEvents, TraceOp.closeErrors]
  | i :: rest =>
    match i with
    | .err m => TraceOp.sendError m :: runTrace logFileName lastAdd queue rest
    | .consume => runTrace logFileName lastAdd queue.tail rest
    | .ev e now =>
        let d := dedupDecide logFileName lastAdd queue.length e now
        d.1.map TraceOp.sendEvent ++ runTrace logFileName d.2 (queue ++ d.1) rest

/-- A Go channel: its buffered items (oldest first) and whether it has been
closed. -/
structure GoChan (α : Type) where
  buf : List α
  closed : Bool
deriving DecidableEq, Repr

/-- `close(ch)`. -/
def chanClose {α : Type} (c : GoChan α) : GoChan α := { c with closed := true }

/-- `for range ch {}` on a closed channel: receives (and discards) every
buffered item until the channel is empty, then stops. -/
def chanDrain {α : Type} (c : GoChan α) : GoChan α := { c with buf := [] }

/-- The pair of output channels of `dedupWriteEvents`. -/
structure OutChans where
  events : GoChan Event
  errors : GoChan String
deriving DecidableEq, Repr

/-- `dedupWriteEvents.close` (dedup.go lines 133-141): close the Events
channel, drain it ("clean all events in channel"), close the Errors
channel, drain it. -/
def dedupClose (c : OutChans) : OutChans :=
  { events := chanDrain (chanClose c.events),
    errors := chanDrain (chanClose c.errors) }

/-- Channel capacities chosen by a constructor. -/
structure ChanCaps where
  eventsCap : Nat
  errorsCap : Nat
deriving DecidableEq, Repr

/-- `newDedupWriteEvents` (dedup.go lines 124-131) builds
`Errors: make(chan error)` - unbuffered - and
`Events: make(chan fsnotify.Event, 4)`. -/
def newDedupWriteEventsCaps : ChanCaps := { eventsCap := 4, errorsCap := 0 }

/-- `newDedupWriteEventsWatcher` (dedup.go lines 41-48) builds
`Events: make(chan fsnotify.Event, 4)`. -/
def newDedupWriteEventsWatcherEventsCap : Nat := 4

/-- Fine-grained state of the loop plus its capacity-4 Events channel:
`chan` is the channel buffer and `pending` the events of the current
iteration the loop has computed but not yet sent (a send to a full
capacity-4 channel blocks until the consumer reads). -/
structure MState where
  lastAdd : Nat
  chan : List Event
  pending : List Event
deriving DecidableEq, Repr

/-- Small-step transitions of the loop/consumer system around the
capacity-4 Events channel: `deliver` runs one policy dispatch when the loop
is back at the top of the loop (no pending sends), `send` completes one
buffered-channel send - enabled only while the buffer holds fewer than 4
items, as `make(chan fsnotify.Event, 4)` enforces - and `read` is the
consumer receiving the oldest item. -/
inductive MStep (logFileName : String) : MState → MState → Prop
  | deliver (s : MState) (e : Event) (now : Nat) (h : s.pending = []) :
      MStep logFileName s
        { lastAdd := (dedupDecide logFileName s.lastAdd s.chan.length e now).2,
          chan := s.chan,
          pending := (dedupDecide logFileName s.lastAdd s.chan.length e now).1 }
  | send (s : MState) (e : Event) (rest : List Event)
      (hp : s.pending = e :: rest) (hc : s.chan.length < 4) :
      MStep logFileName s
        { lastAdd := s.lastAdd, chan := s.chan ++ [e], pending := rest }
  | read (s : MState) (e : Event) (rest : List Event) (hc : s.chan = e :: rest) :
      MStep logFileName s
        { lastAdd := s.lastAdd, chan := rest, pending := s.pending }

/-- Initial fine-grained state: zero timestamp, empty channel, no pending
sends. -/
def initM : MState := { lastAdd := 0, chan := [], pending := [] }

/-- States the loop/consumer system can reach from construction. -/
inductive Reachable (logFileName : String) : MState → Prop
  | init : Reachable logFileName initM
  | step {s t : MState} : Reachable logFileName s → MStep logFileName s t →
      Reachable logFileName t

/-- Claim C1: for a raw event whose base filename equals the watch target and
whose operation is Write, the loop discards the event - sending nothing and
leaving `lastAdd` unchanged - when the output event queue holds at least one
unread item or less than 150 ms elapsed since the last forward; otherwise it
forwards exactly that event and records the current time in `lastAdd`. -/
theorem write_policy (logFileName : String) (s : DState) (e : Event) (now : Nat)
    (hb : goFilepathBase e.name = logFileName) (hop : e.op = opWrite) :
    ((0 < s.events.length ∨ now - s.lastAdd < waitDuration) →
      dedupStep logFileName s (LoopIn.ev e now) = s) ∧
    (¬ (0 < s.events.length ∨ now - s.lastAdd < waitDuration) →
      dedupStep logFileName s (LoopIn.ev e now) =
        { s with events := s.events ++ [e], lastAdd := now }) := by
  constructor <;> intro h <;>
    simp [dedupStep, dedupDecide, hb, hop, h, opWrite, opCreate]

/-- Witness for C1: from the fresh state, a Write for "0.log" at time 200 is
forwarded and the time recorded. -/
theorem write_policy_witness :
    dedupStep "0.log" initState (LoopIn.ev ⟨"0.log", opWrite⟩ 200) =
      { initState with events := initState.events ++ [⟨"0.log", opWrite⟩],
                       lastAdd := 200 } :=
  (write_policy "0.log" initState ⟨"0.log", opWrite⟩ 200 (by decide) rfl).2
    (by decide)

/-- Claim C2: for a raw Create event whose base filename equals the watch
target, the loop first sends a synthesized Write event with the same path,
updates `lastAdd`, then sends the original Create event, in that exact
order, unconditionally - the equation holds for every queue content and
every timing, so no debounce or queue-depth check guards either send. -/
theorem create_policy (logFileName : String) (s : DState) (e : Event) (now : Nat)
    (hb : goFilepathBase e.name = logFileName) (hop : e.op = opCreate) :
    dedupStep logFileName s (LoopIn.ev e now) =
      { s with events := s.events ++ [{ name := e.name, op := opWrite }, e],
               lastAdd := now } := by
  simp [dedupStep, dedupDecide, hb, hop, opWrite, opCreate]

/-- Witness for C2: a Create for "0.log" at time 7 from the fresh state
yields the synthesized Write followed by the Create. -/
theorem create_policy_witness :
    dedupStep "0.log" initState (LoopIn.ev ⟨"0.log", opCreate⟩ 7) =
      { initState with
          events := initState.events ++
            [{ name := "0.log", op := opWrite }, ⟨"0.log", opCreate⟩],
          lastAdd := 7 } :=
  create_policy "0.log" initState ⟨"0.log", opCreate⟩ 7 (by decide) rfl

/-- Claim C7: a raw event whose base filename differs from the watch target
is discarded unconditionally - the state (both output queues and `lastAdd`)
is unchanged, for every operation and every timing. -/
theorem filter_policy (logFileName : String) (s : DState) (e : Event) (now : Nat)
    (hb : ¬ (goFilepathBase e.name = logFileName)) :
    dedupStep logFileName s (LoopIn.ev e now) = s := by
  simp [dedupStep, dedupDecide, hb]

/-- Witness for C7: a Write for "1.log" leaves the "0.log" instance's state
untouched. -/
theorem filter_policy_witness :
    dedupStep "0.log" initState (LoopIn.ev ⟨"1.log", opWrite⟩ 999) = initState :=
  filter_policy "0.log" initState ⟨"1.log", opWrite⟩ 999 (by decide)

/-- Claim C8: a target-file event whose operation is neither Write nor
Create - so Remove, Rename, Chmod, or any operation code outside the policy
table - is forwarded unconditionally with no state update: the equation
holds for every queue content and timing, `lastAdd` and the error queue are
unchanged, and the model raises no error. -/
theorem passthrough_policy (logFileName : String) (s : DState) (e : Event)
    (now : Nat) (hb : goFilepathBase e.name = logFileName)
    (hw : ¬ (e.op = opWrite)) (hc : ¬ (e.op = opCreate)) :
    dedupStep logFileName s (LoopIn.ev e now) =
      { s with events := s.events ++ [e] } := by
  simp [dedupStep, dedupDecide, hb, hw, hc]

/-- Witness for C8: a Remove for "0.log" is forwarded even though the queue
is non-empty and no time has passed since the last forward. -/
theorem passthrough_policy_witness :
    dedupStep "0.log"
        { lastAdd := 50, events := [⟨"0.log", opWrite⟩], errors := [] }
        (LoopIn.ev ⟨"0.log", opRemove⟩ 50) =
      { lastAdd := 50, events := [⟨"0.log", opWrite⟩] ++ [⟨"0.log", opRemove⟩],
        errors := [] } :=
  passthrough_policy "0.log"
    { lastAdd := 50, events := [⟨"0.log", opWrite⟩], errors := [] }
    ⟨"0.log", opRemove⟩ 50 (by decide) (by decide) (by decide)

/-- Claim C10: the very first Write for the target file after construction,
arriving with an empty output queue, is forwarded no matter how recent
construction was: `lastAdd` is zero-initialized, and a wall-clock reading is
never below the 150 ms window (`waitDuration ≤ now` since times count from
the zero timestamp). -/
theorem first_write_policy (logFileName : String) (e : Event) (now : Nat)
    (hb : goFilepathBase e.name = logFileName) (hop : e.op = opWrite)
    (hnow : waitDuration ≤ now) :
    dedupStep logFileName initState (LoopIn.ev e now) =
      { lastAdd := now, events := [e], errors := [] } := by
  have hn : ¬ (now < waitDuration) := by omega
  simp [dedupStep, dedupDecide, hb, hop, initState, hn, opWrite, opCreate]

/-- Witness for C10: a Write for "0.log" at the earliest possible reading,
150 ms after the zero timestamp, is forwarded from the fresh state. -/
theorem first_write_policy_witness :
    dedupStep "0.log" initState (LoopIn.ev ⟨"0.log", opWrite⟩ 150) =
      { lastAdd := 150, events := [⟨"0.log", opWrite⟩], errors := [] } :=
  first_write_policy "0.log" ⟨"0.log", opWrite⟩ 150 (by decide) rfl (by decide)

/-- Claim C6: a raw error value is relayed to the output error queue
unmodified and unconditionally - the event queue and `lastAdd` are
untouched - and it never terminates the loop: the trace continues with the
remaining input, and the close operations appear only when the raw event
stream itself ends. -/
theorem error_relay (logFileName : String) (s : DState) (m : String)
    (lastAdd : Nat) (queue : List Event) (rest : List LoopIn) :
    dedupStep logFileName s (LoopIn.err m) = { s with errors := s.errors ++ [m] } ∧
    runTrace logFileName lastAdd queue (LoopIn.err m :: rest) =
      TraceOp.sendError m :: runTrace logFileName lastAdd queue rest :=
  ⟨rfl, rfl⟩

/-- Claim C4: on every input sequence, the loop's output-channel trace is a
block of sends followed by exactly one close of the Events channel and
exactly one close of the Errors channel, in that order, at the very end -
so each output queue is closed exactly once, only after the loop stopped
producing, and no send ever follows a close. -/
theorem close_once_after_loop (logFileName : String) (inputs : List LoopIn)
    (lastAdd : Nat) (queue : List Event) :
    ∃ t, runTrace logFileName lastAdd queue inputs =
        t ++ [TraceOp.closeEvents, TraceOp.closeErrors] ∧
      ∀ op ∈ t, ¬ (op = TraceOp.closeEvents) ∧ ¬ (op = TraceOp.closeErrors) := by
  induction inputs generalizing lastAdd queue with
  | nil => exact ⟨[], rfl, by simp⟩
  | cons i rest ih =>
      cases i with
      | err m =>
          obtain ⟨t, ht, hn⟩ := ih lastAdd queue
          refine ⟨TraceOp.sendError m :: t, by simp [runTrace, ht], ?_⟩
          intro op hop
          rcases List.mem_cons.mp hop with h | h
          · subst h; exact ⟨by simp, by simp⟩
          · exact hn op h
      | consume =>
          obtain ⟨t, ht, hn⟩ := ih lastAdd queue.tail
          exact ⟨t, by simp [runTrace, ht], hn⟩
      | ev e now =>
          obtain ⟨t, ht, hn⟩ :=
            ih (dedupDecide logFileName lastAdd queue.length e now).2
              (queue ++ (dedupDecide logFileName lastAdd queue.length e now).1)
          refine ⟨(dedupDecide logFileName lastAdd queue.length e now).1.map
              TraceOp.sendEvent ++ t, by simp [runTrace, ht], ?_⟩
          intro op hop
          rcases List.mem_append.mp hop with h | h
          · rcases List.mem_map.mp h with ⟨a, _, ha⟩
            exact ha ▸ ⟨by simp, by simp⟩
          · exact hn op h

/-- Counterexample to claim C3 as stated: with one event still buffered in
the output Events channel, running the shutdown procedure
(`dedupWriteEvents.close`, which closes each channel and then drains it with
`for range`) leaves a buffer that no longer contains that event - the
buffered event is discarded by shutdown, not kept available for the
consumer. -/
theorem shutdown_discards_buffered :
    ¬ ((⟨"0.log", opWrite⟩ : Event) ∈
      (dedupClose
          { events := { buf := [⟨"0.log", opWrite⟩], closed := false },
            errors := { buf := [], closed := false } }).events.buf) := by
  decide

/-- Claim C3 amended: after the raw source is closed, the shutdown procedure
closes each output queue and then drains it, discarding every event and
error still buffered - after shutdown both output queues are closed and
empty, so only items the consumer read before the drain are delivered. -/
theorem shutdown_closes_and_drains (c : OutChans) :
    (dedupClose c).events.closed = true ∧ (dedupClose c).events.buf = [] ∧
    (dedupClose c).errors.closed = true ∧ (dedupClose c).errors.buf = [] :=
  ⟨rfl, rfl, rfl, rfl⟩

/-- Counterexample to claim C5 as stated: the relayed-error queue built by
`newDedupWriteEvents` is `make(chan error)` - unbuffered, capacity 0 - not
a bounded queue of capacity 4. -/
theorem error_queue_cap_not_four : ¬ (newDedupWriteEventsCaps.errorsCap = 4) := by
  decide

/-- Claim C5 amended: the output event queue is bounded with fixed capacity
4 in both constructors and its length never exceeds 4 in any reachable
state of the loop/consumer system; the relayed-error queue is unbuffered
(capacity 0). -/
theorem events_queue_bounded (logFileName : String) (s : MState)
    (h : Reachable logFileName s) :
    s.chan.length ≤ 4 ∧ newDedupWriteEventsCaps.eventsCap = 4 ∧
      newDedupWriteEventsWatcherEventsCap = 4 ∧
      newDedupWriteEventsCaps.errorsCap = 0 := by
  refine ⟨?_, rfl, rfl, rfl⟩
  induction h with
  | init => simp [initM]
  | step hr hstep ih =>
      cases hstep with
      | deliver e now hp => simpa using ih
      | send e rest hp hc =>
          simp only [List.length_append, List.length_cons, List.length_nil]
          omega
      | read e rest hc =>
          have hlen := congrArg List.length hc
          simp only [List.length_cons] at hlen
          show rest.length ≤ 4
          omega

/-- Witness for C5: a reachable state obtained by delivering a Create for
"0.log" to the fresh system and completing the first of its two sends. -/
theorem events_queue_bounded_witness :
    ({ lastAdd := 5, chan := [{ name := "0.log", op := opWrite }],
       pending := [⟨"0.log", opCreate⟩] } : MState).chan.length ≤ 4 ∧
      newDedupWriteEventsCaps.eventsCap = 4 ∧
      newDedupWriteEventsWatcherEventsCap = 4 ∧
      newDedupWriteEventsCaps.errorsCap = 0 :=
  events_queue_bounded "0.log" _
    (Reachable.step
      (Reachable.step Reachable.init
        (MStep.deliver initM ⟨"0.log", opCreate⟩ 5 rfl))
      (MStep.send _ { name := "0.log", op := opWrite } [⟨"0.log", opCreate⟩]
        (by decide) (by decide)))

/-- Counterexample to claim C9 as stated: target "0.log", three Writes at
times 1000, 1010, 1020 from the fresh (empty-queue) state forward exactly
one Write; a fourth Write at time 1200 - a full 200 ms after the forward at
1000 - is still discarded, because the forwarded event is still buffered in
the output queue (queue-depth check), so the whole trace holds one
forwarded Write, not the two the claim demands. -/
theorem debounce_expiry_counterexample :
    runTrace "0.log" 0 []
        [LoopIn.ev ⟨"0.log", opWrite⟩ 1000, LoopIn.ev ⟨"0.log", opWrite⟩ 1010,
         LoopIn.ev ⟨"0.log", opWrite⟩ 1020, LoopIn.ev ⟨"0.log", opWrite⟩ 1200] =
      [TraceOp.sendEvent ⟨"0.log", opWrite⟩, TraceOp.closeEvents,
       TraceOp.closeErrors] := by
  decide

/-- Claim C9 amended: three Writes for "0.log" delivered 10 ms apart from an
initially empty output queue forward exactly one Write; and if the consumer
has read the forwarded event off the queue and one more Write arrives at
least 150 ms after the forward, it is forwarded too - exactly two forwarded
Writes across the scenario. -/
theorem debounce_expiry (t0 t3 : Nat) (h0 : waitDuration ≤ t0)
    (h3 : t0 + waitDuration ≤ t3) :
    runTrace "0.log" 0 []
        [LoopIn.ev ⟨"0.log", opWrite⟩ t0, LoopIn.ev ⟨"0.log", opWrite⟩ (t0 + 10),
         LoopIn.ev ⟨"0.log", opWrite⟩ (t0 + 20)] =
      [TraceOp.sendEvent ⟨"0.log", opWrite⟩, TraceOp.closeEvents,
       TraceOp.closeErrors] ∧
    runTrace "0.log" 0 []
        [LoopIn.ev ⟨"0.log", opWrite⟩ t0, LoopIn.ev ⟨"0.log", opWrite⟩ (t0 + 10),
         LoopIn.ev ⟨"0.log", opWrite⟩ (t0 + 20), LoopIn.consume,
         LoopIn.ev ⟨"0.log", opWrite⟩ t3] =
      [TraceOp.sendEvent ⟨"0.log", opWrite⟩, TraceOp.sendEvent ⟨"0.log", opWrite⟩,
       TraceOp.closeEvents, TraceOp.closeErrors] := by
  have hb : goFilepathBase "0.log" = "0.log" := by decide
  have hn0 : ¬ (t0 < waitDuration) := by omega
  have hn3 : ¬ (t3 - t0 < waitDuration) := by
    simp only [waitDuration] at *
    omega
  constructor <;>
    simp [runTrace, dedupDecide, hb, hn0, hn3, opWrite, opCreate]

/-- Witness for C9 (amended): the scenario at t0 = 1000 with the final Write
at 1200. -/
theorem debounce_expiry_witness :
    runTrace "0.log" 0 []
        [LoopIn.ev ⟨"0.log", opWrite⟩ 1000,
         LoopIn.ev ⟨"0.log", opWrite⟩ (1000 + 10),
         LoopIn.ev ⟨"0.log", opWrite⟩ (1000 + 20)] =
      [TraceOp.sendEvent ⟨"0.log", opWrite⟩, TraceOp.closeEvents,
       TraceOp.closeErrors] ∧
    runTrace "0.log" 0 []
        [LoopIn.ev ⟨"0.log", opWrite⟩ 1000,
         LoopIn.ev ⟨"0.log", opWrite⟩ (1000 + 10),
         LoopIn.ev ⟨"0.log", opWrite⟩ (1000 + 20), LoopIn.consume,
         LoopIn.ev ⟨"0.log", opWrite⟩ 1200] =
      [TraceOp.sendEvent ⟨"0.log", opWrite⟩, TraceOp.sendEvent ⟨"0.log", opWrite⟩,
       TraceOp.closeEvents, TraceOp.closeErrors] :=
  debounce_expiry 1000 1200 (by decide) (by decide)

end DedupLogs
